import Mathlib

/-!
# Verification of the pandas-agent code-execution gateway

A shallow embedding of `src/server.py` (the result normalizer
`_make_json_serializable` and the tool-level error boundaries of
`dataframe_to_json_tool` / `read_json_tool`) and, modelled from the spec,
the screening filter of `run_pandas_code`.

Python values that can reach the normalizer are embedded as the inductive
type `PyVal`.  Library operations that sit outside the repository
(`o.item()`, `o.isoformat()`, `o.tolist()`, `str(o)`) are embedded by
storing their outcome in the constructor: an `Option` field is `none`
exactly when the call would raise, mirroring the `try/except` arms of the
source.
-/

/-- A Python float as far as the normalizer observes it: either the IEEE
NaN payload (for which `pd.isna` returns `True`) or an ordinary finite
value.  No arithmetic is performed on floats anywhere in the embedded
code, so the finite payload is kept exact as a rational. -/
inductive FloatVal where
  | nan
  | val (q : Rat)
deriving DecidableEq

/-- Which member of the `isinstance(o, (datetime, date, time, _pd.Timestamp))`
tuple a date/time-like value is.  The normalizer treats all four
identically. -/
inductive DTKind where
  | datetime
  | date
  | time
  | timestamp
deriving DecidableEq

/-- The universe of Python values reaching `_make_json_serializable`,
covering every type the source names in an `isinstance` check plus the
fallback case.

* `npInt n itemOk` / `npFloat f itemOk` / `npBool b itemOk`: a numpy
  scalar; `itemOk = false` embeds the (in practice unreachable) case that
  `o.item()` raises, in which case the source falls back to `float(o)`.
* `npComplex re im srepr`: a numpy complex scalar — also an instance of
  `np.number`, so the same source arm matches it and `o.item()` returns
  the native Python complex `re + im*j`, whose `str` form is `srepr`.
  No `itemOk` flag: `item()` never raises, and in the hypothetical
  `except` branch `float(o)` on a complex itself raises `TypeError`, so
  the source defines no degradation there.  Only finite payloads are
  modelled (`re`, `im` are rationals), matching the claims under study.
* `complex re im srepr`: a native Python complex (as produced by
  `item()` on a numpy complex scalar).  It matches no `isinstance` arm
  of the normalizer — not `float`, not `np.number`, not datetime — and
  `pd.isna` is `False` on finite complexes, so on a second pass it falls
  through to the final `str(o)` arm.
* `decimal srepr`: a `Decimal` whose `str` form is `srepr`.
* `nat_` / `na`: the pandas missing-value sentinels `pd.NaT` and `pd.NA`
  (`pd.isna` returns `True` on both; `pd.NaT` is also an instance of
  `datetime`).
* `dtime k iso srepr`: a datetime/date/time/Timestamp whose
  `isoformat()` returns `iso` (`none` when `isoformat()` raises) and
  whose `str` form is `srepr`.
* `dict entries`: a Python dict; keys are arbitrary values, in insertion
  order.
* `ndarray elems`: an array-like exposing `tolist()`, which returns the
  Python list `elems`.
* `other srepr`: any other object; `str(o)` returns `srepr`, or raises
  when `srepr = none`. -/
inductive PyVal where
  | none
  | bool (b : Bool)
  | int (n : Int)
  | float (f : FloatVal)
  | str (s : String)
  | npInt (n : Int) (itemOk : Bool)
  | npFloat (f : FloatVal) (itemOk : Bool)
  | npBool (b : Bool) (itemOk : Bool)
  | npComplex (re im : Rat) (srepr : String)
  | complex (re im : Rat) (srepr : String)
  | decimal (srepr : String)
  | nat_
  | na
  | dtime (k : DTKind) (iso : Option String) (srepr : String)
  | dict (entries : List (PyVal × PyVal))
  | list (elems : List PyVal)
  | tuple (elems : List PyVal)
  | set (elems : List PyVal)
  | ndarray (elems : List PyVal)
  | other (srepr : Option String)

/-- `float(o)` applied to a numpy boolean: `float(np.True_) = 1.0`,
`float(np.False_) = 0.0`.  Used by the `except` fallback of the numpy
scalar arm. -/
def floatOfNpBool (b : Bool) : FloatVal :=
  .val (if b then 1 else 0)

mutual

/-- Embedding of `_make_json_serializable` (src/server.py lines 152-202).
The match arms appear in the source's order of precedence; each `PyVal`
constructor is handled by the first source arm whose `isinstance`
(or `pd.isna`, or `hasattr(o, 'tolist')`) test it satisfies:

1. primitives (`None`, `str`, `bool`, `int`, `float`) are returned as-is;
2. numpy scalars go through `o.item()`, falling back to `float(o)`;
   the `isinstance` tuple ends in `np.number`, so complex scalars are
   matched too and `item()` hands back a native Python complex — which
   is not one of the five NormalizedValue shapes;
3. `Decimal` becomes `str(o)`;
4. values for which `pd.isna(o)` is a true scalar (`pd.NaT`, `pd.NA`)
   become `None` — `pd.NaT` is an instance of `datetime` but this arm
   fires first;
5. datetime-likes become `o.isoformat()`, falling back to `str(o)`;
6. dicts recurse into the values, keys passed through unchanged;
7. list/tuple/set become a list of recursively converted elements;
8. array-likes go through `o.tolist()` (yielding a Python list) and
   recurse, which dispatches to arm 7;
9. anything else becomes `str(o)`, or `None` when `str(o)` raises. -/
def make_json_serializable : PyVal → PyVal
  | .none => .none
  | .bool b => .bool b
  | .int n => .int n
  | .float f => .float f
  | .str s => .str s
  | .npInt n itemOk => if itemOk then .int n else .float (.val n)
  | .npFloat f itemOk => if itemOk then .float f else .float f
  | .npBool b itemOk => if itemOk then .bool b else .float (floatOfNpBool b)
  | .npComplex re im srepr => .complex re im srepr
  | .complex _ _ srepr => .str srepr
  | .decimal srepr => .str srepr
  | .nat_ => .none
  | .na => .none
  | .dtime _ iso srepr =>
      match iso with
      | some s => .str s
      | Option.none => .str srepr
  | .dict entries => .dict (serializeEntries entries)
  | .list elems => .list (serializeList elems)
  | .tuple elems => .list (serializeList elems)
  | .set elems => .list (serializeList elems)
  | .ndarray elems => .list (serializeList elems)
  | .other srepr =>
      match srepr with
      | some s => .str s
      | Option.none => .none

/-- The list comprehension `[_make_json_serializable(v) for v in o]`. -/
def serializeList : List PyVal → List PyVal
  | [] => []
  | v :: vs => make_json_serializable v :: serializeList vs

/-- The dict comprehension
`{k: _make_json_serializable(v) for k, v in o.items()}`: keys are passed
through unchanged, values recurse, insertion order is kept. -/
def serializeEntries : List (PyVal × PyVal) → List (PyVal × PyVal)
  | [] => []
  | (k, v) :: es => (k, make_json_serializable v) :: serializeEntries es

end

/-- `True` iff the value is a Python string.  Used to state the
spec's requirement that normalized mappings have string keys. -/
def isStrKey : PyVal → Bool
  | .str _ => true
  | _ => false

mutual

/-- The spec's `NormalizedValue` shape, decided recursively: `null`,
boolean, number (int or float), string, a list of NormalizedValue, or a
mapping with string keys and NormalizedValue values. -/
def isNormalized : PyVal → Bool
  | .none => true
  | .bool _ => true
  | .int _ => true
  | .float _ => true
  | .str _ => true
  | .list elems => allNormalized elems
  | .dict entries => entriesNormalized entries
  | _ => false

/-- Every element of the list is a NormalizedValue. -/
def allNormalized : List PyVal → Bool
  | [] => true
  | v :: vs => isNormalized v && allNormalized vs

/-- Every key is a string and every value a NormalizedValue. -/
def entriesNormalized : List (PyVal × PyVal) → Bool
  | [] => true
  | (k, v) :: es => isStrKey k && isNormalized v && entriesNormalized es

end

mutual

/-- Every mapping occurring anywhere inside the value has only string
keys.  (The source passes dict keys through unchanged, so this is the
input-side condition under which the output is string-keyed.) -/
def strKeyed : PyVal → Bool
  | .dict entries => entriesStrKeyed entries
  | .list elems => allStrKeyed elems
  | .tuple elems => allStrKeyed elems
  | .set elems => allStrKeyed elems
  | .ndarray elems => allStrKeyed elems
  | _ => true

def allStrKeyed : List PyVal → Bool
  | [] => true
  | v :: vs => strKeyed v && allStrKeyed vs

def entriesStrKeyed : List (PyVal × PyVal) → Bool
  | [] => true
  | (k, v) :: es => isStrKey k && strKeyed v && entriesStrKeyed es

end

mutual

/-- No complex scalar — neither a numpy complex (matched by the
`np.number` arm, whose `item()` yields a native complex) nor a native
complex (which that arm's output is) — occurs anywhere in the value.
Only mapping values are inspected: a complex mapping key already
violates `strKeyed`. -/
def complexFree : PyVal → Bool
  | .npComplex _ _ _ => false
  | .complex _ _ _ => false
  | .dict entries => entriesComplexFree entries
  | .list elems => allComplexFree elems
  | .tuple elems => allComplexFree elems
  | .set elems => allComplexFree elems
  | .ndarray elems => allComplexFree elems
  | _ => true

def allComplexFree : List PyVal → Bool
  | [] => true
  | v :: vs => complexFree v && allComplexFree vs

def entriesComplexFree : List (PyVal × PyVal) → Bool
  | [] => true
  | (_, v) :: es => complexFree v && entriesComplexFree es

end

/-- Outcome of `_pd.isna(o)` on the embedded universe as used at
src/server.py lines 170-174: `some b` when it returns the scalar `b`,
`none` when evaluating `if _pd.isna(o)` raises (list-likes, for which
`pd.isna` returns an array whose truth value is ambiguous).  True exactly
on the IEEE NaN float, NaN-valued numpy floats, `pd.NaT` and `pd.NA`. -/
def isnaResult : PyVal → Option Bool
  | .float .nan => some true
  | .npFloat .nan _ => some true
  | .nat_ => some true
  | .na => some true
  | .list _ => Option.none
  | .tuple _ => Option.none
  | .ndarray _ => Option.none
  | _ => some false

/-- Whether a value is matched by one of the normalizer's arms that
precede the `pd.isna` check (src/server.py lines 154-167): the primitive
arm, the numpy scalar arm or the `Decimal` arm. -/
def matchesEarlierRule : PyVal → Bool
  | .none => true
  | .bool _ => true
  | .int _ => true
  | .float _ => true
  | .str _ => true
  | .npInt _ _ => true
  | .npFloat _ _ => true
  | .npBool _ _ => true
  | .npComplex _ _ _ => true
  | .decimal _ => true
  | _ => false

/-- Whether `isinstance(o, (datetime, date, time, _pd.Timestamp))` holds
(src/server.py line 177).  `pd.NaT` is an instance of `datetime`, so it
satisfies this test even though the `pd.isna` arm captures it first. -/
def isDatetimeLike : PyVal → Bool
  | .dtime _ _ _ => true
  | .nat_ => true
  | _ => false

/-- `True` iff the value is a Python float.  Used to state that the
`Decimal` arm never produces a binary float. -/
def isFloatVal : PyVal → Bool
  | .float _ => true
  | _ => false

/-- `True` iff the value is Python `None`. -/
def isNullVal : PyVal → Bool
  | .none => true
  | _ => false

mutual

/-- On inputs all of whose mapping keys are strings and in which no
complex scalar occurs, the normalizer's output is one of the five
NormalizedValue shapes at every depth. -/
theorem serialize_normalized_of_strKeyed_complexFree :
    ∀ v : PyVal, strKeyed v = true → complexFree v = true →
      isNormalized (make_json_serializable v) = true
  | .none, _, _ => rfl
  | .bool _, _, _ => rfl
  | .int _, _, _ => rfl
  | .float _, _, _ => rfl
  | .str _, _, _ => rfl
  | .npInt _ itemOk, _, _ => by cases itemOk <;> rfl
  | .npFloat _ itemOk, _, _ => by cases itemOk <;> rfl
  | .npBool _ itemOk, _, _ => by cases itemOk <;> rfl
  | .npComplex _ _ _, _, hc => nomatch hc
  | .complex _ _ _, _, hc => nomatch hc
  | .decimal _, _, _ => rfl
  | .nat_, _, _ => rfl
  | .na, _, _ => rfl
  | .dtime _ iso _, _, _ => by cases iso <;> rfl
  | .dict es, h, hc => entriesNormalized_of_strKeyed_complexFree es h hc
  | .list vs, h, hc => serializeList_normalized_of_strKeyed_complexFree vs h hc
  | .tuple vs, h, hc => serializeList_normalized_of_strKeyed_complexFree vs h hc
  | .set vs, h, hc => serializeList_normalized_of_strKeyed_complexFree vs h hc
  | .ndarray vs, h, hc => serializeList_normalized_of_strKeyed_complexFree vs h hc
  | .other srepr, _, _ => by cases srepr <;> rfl

theorem serializeList_normalized_of_strKeyed_complexFree :
    ∀ vs : List PyVal, allStrKeyed vs = true → allComplexFree vs = true →
      allNormalized (serializeList vs) = true
  | [], _, _ => rfl
  | v :: vs, h, hc => by
      rw [allStrKeyed] at h
      rw [allComplexFree] at hc
      rcases Bool.and_eq_true_iff.mp h with ⟨h1, h2⟩
      rcases Bool.and_eq_true_iff.mp hc with ⟨hc1, hc2⟩
      rw [serializeList, allNormalized,
        serialize_normalized_of_strKeyed_complexFree v h1 hc1,
        serializeList_normalized_of_strKeyed_complexFree vs h2 hc2]
      rfl

theorem entriesNormalized_of_strKeyed_complexFree :
    ∀ es : List (PyVal × PyVal), entriesStrKeyed es = true →
      entriesComplexFree es = true →
      entriesNormalized (serializeEntries es) = true
  | [], _, _ => rfl
  | (k, v) :: es, h, hc => by
      rw [entriesStrKeyed] at h
      rw [entriesComplexFree] at hc
      rcases Bool.and_eq_true_iff.mp h with ⟨h1, h3⟩
      rcases Bool.and_eq_true_iff.mp h1 with ⟨hk, hv⟩
      rcases Bool.and_eq_true_iff.mp hc with ⟨hc1, hc2⟩
      rw [serializeEntries, entriesNormalized, hk,
        serialize_normalized_of_strKeyed_complexFree v hv hc1,
        entriesNormalized_of_strKeyed_complexFree es h3 hc2]
      rfl

end

mutual

/-- The normalizer fixes every value that is already a NormalizedValue. -/
theorem serialize_id_of_normalized :
    ∀ v : PyVal, isNormalized v = true → make_json_serializable v = v
  | .none, _ => rfl
  | .bool _, _ => rfl
  | .int _, _ => rfl
  | .float _, _ => rfl
  | .str _, _ => rfl
  | .npInt _ _, h => nomatch h
  | .npFloat _ _, h => nomatch h
  | .npBool _ _, h => nomatch h
  | .npComplex _ _ _, h => nomatch h
  | .complex _ _ _, h => nomatch h
  | .decimal _, h => nomatch h
  | .nat_, h => nomatch h
  | .na, h => nomatch h
  | .dtime _ _ _, h => nomatch h
  | .dict es, h => congrArg PyVal.dict (serializeEntries_id_of_normalized es h)
  | .list vs, h => congrArg PyVal.list (serializeList_id_of_normalized vs h)
  | .tuple _, h => nomatch h
  | .set _, h => nomatch h
  | .ndarray _, h => nomatch h
  | .other _, h => nomatch h

theorem serializeList_id_of_normalized :
    ∀ vs : List PyVal, allNormalized vs = true → serializeList vs = vs
  | [], _ => rfl
  | v :: vs, h => by
      rw [allNormalized] at h
      rcases Bool.and_eq_true_iff.mp h with ⟨h1, h2⟩
      rw [serializeList, serialize_id_of_normalized v h1,
        serializeList_id_of_normalized vs h2]

theorem serializeEntries_id_of_normalized :
    ∀ es : List (PyVal × PyVal), entriesNormalized es = true → serializeEntries es = es
  | [], _ => rfl
  | (k, v) :: es, h => by
      rw [entriesNormalized] at h
      rcases Bool.and_eq_true_iff.mp h with ⟨h1, h3⟩
      rcases Bool.and_eq_true_iff.mp h1 with ⟨_, hv⟩
      rw [serializeEntries, serialize_id_of_normalized v hv,
        serializeEntries_id_of_normalized es h3]

end

/-- The dict comprehension, written as a `List.map`: keys and insertion
order are preserved literally. -/
theorem serializeEntries_eq_map :
    ∀ es : List (PyVal × PyVal),
      serializeEntries es = es.map (fun p => (p.1, make_json_serializable p.2))
  | [] => rfl
  | (k, v) :: es => by
      rw [serializeEntries, List.map_cons, serializeEntries_eq_map es]

/-- **C1** (amended).  `_make_json_serializable` is total — in this
embedding it is a function, so every input yields a value and no
exception escapes — and every per-node library failure degrades as the
source's `except` arms prescribe: an object whose `str` succeeds becomes
that string, an object whose `str` raises becomes `null`, a datetime-like
whose `isoformat` raises falls back to its `str` form, and a numpy scalar
whose `item()` raises falls back to `float(o)`.  The output is a
NormalizedValue whenever every mapping key throughout the input is a
string and no complex scalar occurs in it: dict keys are passed through
unchanged, so non-string keys survive into the output, and a numpy
complex scalar is matched by the `np.number` arm, whose `item()` hands
back a native complex. -/
theorem C1_normalizer_total_and_degrades :
    (∀ v : PyVal, strKeyed v = true → complexFree v = true →
        isNormalized (make_json_serializable v) = true)
    ∧ (∀ s, make_json_serializable (.other (some s)) = .str s)
    ∧ make_json_serializable (.other Option.none) = .none
    ∧ (∀ k s, make_json_serializable (.dtime k Option.none s) = .str s)
    ∧ (∀ n, make_json_serializable (.npInt n false) = .float (.val n))
    ∧ (∀ f, make_json_serializable (.npFloat f false) = .float f)
    ∧ (∀ b, make_json_serializable (.npBool b false) = .float (floatOfNpBool b)) :=
  ⟨serialize_normalized_of_strKeyed_complexFree,
   fun _ => rfl, rfl, fun _ _ => rfl, fun _ => rfl, fun _ => rfl, fun _ => rfl⟩

/-- Witness for C1 at a concrete input: a string-keyed, complex-free
dict holding a numpy NaN normalizes to a NormalizedValue. -/
theorem C1_witness :
    isNormalized (make_json_serializable
      (.dict [(.str "a", .npFloat .nan true)])) = true :=
  C1_normalizer_total_and_degrades.1 (.dict [(.str "a", .npFloat .nan true)]) rfl rfl

/-- Counterexample to C1 as stated: on the Python dict `{1: 2}` the
normalizer returns `{1: 2}` unchanged — its key is the integer `1`, not a
string — and on the numpy scalar `np.complex128(1+2j)` it returns the
native complex `(1+2j)`; neither output is one of the five
NormalizedValue shapes. -/
theorem C1_counterexample :
    (make_json_serializable (.dict [(.int 1, .int 2)]) = .dict [(.int 1, .int 2)]
      ∧ isNormalized (make_json_serializable (.dict [(.int 1, .int 2)])) = false)
    ∧ (make_json_serializable (.npComplex 1 2 "(1+2j)") = .complex 1 2 "(1+2j)"
      ∧ isNormalized (make_json_serializable (.npComplex 1 2 "(1+2j)")) = false) :=
  ⟨⟨rfl, rfl⟩, ⟨rfl, rfl⟩⟩

/-- **C2** (amended).  On inputs all of whose mapping keys are strings
and in which no complex scalar occurs, the output at every nesting depth
is one of the five NormalizedValue shapes with no library-specific type
remaining; mapping keys are passed through unchanged (so string keys are
preserved as strings) and insertion order is preserved, the dict arm
being literally a map over the entry list. -/
theorem C2_five_shapes_keys_order :
    (∀ v : PyVal, strKeyed v = true → complexFree v = true →
        isNormalized (make_json_serializable v) = true)
    ∧ (∀ es : List (PyVal × PyVal),
        make_json_serializable (.dict es)
          = .dict (es.map (fun p => (p.1, make_json_serializable p.2)))) :=
  ⟨serialize_normalized_of_strKeyed_complexFree,
   fun es => congrArg PyVal.dict (serializeEntries_eq_map es)⟩

/-- Witness for C2 at a concrete input: a mapping containing a list
containing a numpy scalar and a decimal normalizes to primitive-only
nesting. -/
theorem C2_witness :
    isNormalized (make_json_serializable
      (.dict [(.str "xs", .list [.npInt 7 true, .decimal "12.345"])])) = true :=
  C2_five_shapes_keys_order.1
    (.dict [(.str "xs", .list [.npInt 7 true, .decimal "12.345"])]) rfl rfl

/-- Counterexample to C2 as stated: the Python dict `{True: None}` is
returned with its boolean key unchanged, so the output is not a mapping
from string keys; and the all-string-keyed dict `{"z": np.complex128(1+2j)}`
(reachable via `df.to_dict` on a complex-dtype column) comes back holding
a native complex, which is not one of the five shapes. -/
theorem C2_counterexample :
    (make_json_serializable (.dict [(.bool true, .none)]) = .dict [(.bool true, .none)]
      ∧ isNormalized (make_json_serializable (.dict [(.bool true, .none)])) = false)
    ∧ (make_json_serializable (.dict [(.str "z", .npComplex 1 2 "(1+2j)")])
        = .dict [(.str "z", .complex 1 2 "(1+2j)")]
      ∧ isNormalized (make_json_serializable
          (.dict [(.str "z", .npComplex 1 2 "(1+2j)")])) = false) :=
  ⟨⟨rfl, rfl⟩, ⟨rfl, rfl⟩⟩

/-- **C5**.  Normalization is idempotent on already-normalized input: any
value built from the five NormalizedValue shapes is a fixed point, so a
second pass changes nothing. -/
theorem C5_idempotent_on_normalized :
    ∀ x : PyVal, isNormalized x = true →
      make_json_serializable (make_json_serializable x) = make_json_serializable x := by
  intro x h
  rw [serialize_id_of_normalized x h, serialize_id_of_normalized x h]

/-- Witness for C5 at a concrete already-normalized input. -/
theorem C5_witness :
    make_json_serializable (make_json_serializable
        (.dict [(.str "a", .list [.int 1, .float .nan, .none])]))
      = make_json_serializable (.dict [(.str "a", .list [.int 1, .float .nan, .none])]) :=
  C5_idempotent_on_normalized (.dict [(.str "a", .list [.int 1, .float .nan, .none])]) rfl

/-- **C6**.  A `Decimal` normalizes to its `str` form, which preserves
all digits exactly; `Decimal("12.345")` becomes the string `"12.345"`,
and the `Decimal` arm never produces a float. -/
theorem C6_decimal_to_string :
    (∀ s, make_json_serializable (.decimal s) = .str s)
    ∧ make_json_serializable (.decimal "12.345") = .str "12.345"
    ∧ (∀ s, isFloatVal (make_json_serializable (.decimal s)) = false) :=
  ⟨fun _ => rfl, rfl, fun _ => rfl⟩

/-- **C7**.  Every value on which `pd.isna` is a true scalar and that no
earlier arm (primitive, numpy scalar, `Decimal`) captures — in this
universe `pd.NaT` and `pd.NA` — normalizes to `null`; and `pd.NaT`
satisfies the datetime `isinstance` test of the later arm, which would
have formatted it as a string had the `pd.isna` arm not fired first. -/
theorem C7_missing_markers_to_null :
    (∀ v : PyVal, isnaResult v = some true → matchesEarlierRule v = false →
        make_json_serializable v = .none)
    ∧ isDatetimeLike .nat_ = true := by
  constructor
  · intro v h1 h2
    cases v with
    | float f => cases f <;> simp_all [matchesEarlierRule, isnaResult]
    | npFloat f itemOk => cases f <;> simp_all [matchesEarlierRule, isnaResult]
    | nat_ => rfl
    | na => rfl
    | _ => simp_all [matchesEarlierRule, isnaResult]
  · rfl

/-- Witness for C7: `pd.NaT` and `pd.NA` both normalize to `null`. -/
theorem C7_witness :
    make_json_serializable .nat_ = .none ∧ make_json_serializable .na = .none :=
  ⟨C7_missing_markers_to_null.1 .nat_ rfl rfl,
   C7_missing_markers_to_null.1 .na rfl rfl⟩

/-- **C8**.  A datetime/date/time/Timestamp (never a missing marker:
`pd.isna` is false on all of them) normalizes to its `isoformat()`
string; if `isoformat()` raises, it falls back to `str(o)`; in particular
the date `2024-01-15` normalizes to the string `"2024-01-15"`. -/
theorem C8_datetime_to_iso :
    (∀ k iso srepr, make_json_serializable (.dtime k (some iso) srepr) = .str iso)
    ∧ (∀ k srepr, make_json_serializable (.dtime k Option.none srepr) = .str srepr)
    ∧ (∀ k iso srepr, isnaResult (.dtime k iso srepr) = some false)
    ∧ make_json_serializable (.dtime .date (some "2024-01-15") "2024-01-15")
        = .str "2024-01-15" :=
  ⟨fun _ _ _ => rfl, fun _ _ => rfl, fun _ _ _ => rfl, rfl⟩

/-! ## The tool-call boundary (src/server.py lines 106-126 and 129-210)

Python's exception flow is embedded with `Outcome`: a call into an
external collaborator either returns a value or raises an exception
carrying `str(e)` and its traceback text.  The tool bodies from the
source are translated directly; each library call they make
(`run_pandas_code`, `pd.read_json`, the `open`/`json.dump` write) is a
parameter of type `... → Outcome _`, so the theorems quantify over every
behaviour of those collaborators. -/

/-- A Python call that either returns `a` or raises an exception with
message `str(e) = msg` and traceback text `tb`. -/
inductive Outcome (α : Type) where
  | ok (a : α)
  | exn (msg tb : String)

/-- The `status` discriminant of every tool response. -/
inductive Status where
  | SUCCESS
  | ERROR
deriving DecidableEq

/-- A `pandas.DataFrame` as the tools observe it: its `to_dict(orient)`
output, its `shape`, and its column names. -/
structure Frame where
  toDict : String → PyVal
  shape : Nat × Nat
  cols : List String

/-- The value found under the `result` key of a `run_pandas_code`
response: either a `pandas.DataFrame` or some other Python object. -/
inductive RVal where
  | dataframe (df : Frame)
  | pyobj (v : PyVal)

/-- A tool-response dict.  Absent keys are `none`; the source's response
dicts populate only the fields relevant to each return site. -/
structure Resp where
  status : Status
  message : Option String := Option.none
  traceback : Option String := Option.none
  result : Option RVal := Option.none
  data : Option PyVal := Option.none
  shape : Option (Nat × Nat) := Option.none
  columns : Option (List String) := Option.none
  path : Option String := Option.none

/-- Embedding of `read_json_tool` (src/server.py lines 106-126):
`pd.read_json` (passed in as `read_json`) is called inside `try`; on
success the tool returns a SUCCESS dict with the records, shape and
columns; on any exception it returns `{"status": "ERROR", "message":
str(e)}`. -/
def read_json_tool (read_json : String → String → Outcome Frame)
    (file_path : String) (orient : String) : Resp :=
  match read_json file_path orient with
  | .ok df =>
      { status := .SUCCESS, data := some (df.toDict "records"),
        shape := some df.shape, columns := some df.cols }
  | .exn m _ => { status := .ERROR, message := some m }

/-- Embedding of `dataframe_to_json_tool` (src/server.py lines 129-210).
`run` is `run_pandas_code`, `write` the `open`/`json.dump` step (given
the path and the serialized data).  The whole body runs inside `try`:
an exception anywhere becomes `{"status": "ERROR", "message": str(e),
"traceback": ...}`.  An ERROR response from `run` is returned unchanged;
a non-DataFrame (or absent) `result` yields the fixed error message; the
second component records whether the output file write happened. -/
def dataframe_to_json_tool (run : String → Outcome Resp)
    (write : String → PyVal → Outcome Unit)
    (code : String) (output_path : String) (orient : String) : Resp × Bool :=
  match run code with
  | .exn m t => ({ status := .ERROR, message := some m, traceback := some t }, false)
  | .ok r =>
    if r.status = .ERROR then (r, false)
    else
      match r.result with
      | some (.dataframe df) =>
          match write output_path (make_json_serializable (df.toDict orient)) with
          | .ok _ => ({ status := .SUCCESS, path := some output_path }, true)
          | .exn m t =>
              ({ status := .ERROR, message := some m, traceback := some t }, false)
      | _ =>
          ({ status := .ERROR,
             message := some "Expected a pandas.DataFrame in 'result'" }, false)

/-! ## The screening filter

`run_pandas_code` lives in `core/execution.py`, outside this repository
snapshot; only its caller and its docstring (src/server.py lines 44-67)
are present.  The screening policy is therefore modelled from the spec. -/

/-- Whether `pat` occurs in `cs` as a contiguous sublist
(Python's `pat in s` on strings). -/
def charsHaveSub (pat : List Char) : List Char → Bool
  | [] => pat.isEmpty
  | c :: cs => List.isPrefixOf pat (c :: cs) || charsHaveSub pat cs

/-- Python's `pat in s` substring test. -/
def containsSubstrPy (s pat : String) : Bool :=
  charsHaveSub pat.data s.data

/-- Modelled from the spec: the fixed denylist of the Screening Filter
(spec section 4.1), whose entries are enumerated in the
`run_pandas_code_tool` docstring's Forbidden Operations list
(src/server.py lines 54-61): system/process access prefixes, dynamic
code-execution primitives, dangerous imports, browser/DOM and remote
fetch identifiers, and script-injection markers. -/
def forbidden_operations : List String :=
  ["os.", "sys.", "subprocess.",
   "open(", "exec(", "eval(",
   "import os", "import sys",
   "document.", "window.", "XMLHttpRequest",
   "fetch(", "Function(",
   "script", "javascript:"]

/-- Verdict of the Screening Filter. -/
inductive ScreenVerdict where
  | allowed
  | rejected
deriving DecidableEq

/-- Modelled from the spec: `screen(code)` (spec section 4.1) rejects
exactly when the code contains, as a literal case-sensitive substring,
any entry of the fixed denylist. -/
def screen (code : String) : ScreenVerdict :=
  if forbidden_operations.any (fun d => containsSubstrPy code d) then .rejected
  else .allowed

/-- Modelled from the spec: `run_pandas_code` (core/execution.py, not in
this snapshot) screens the submission first and, on rejection, returns
an ERROR response without ever invoking the execution step; otherwise it
executes and wraps any raised exception into an ERROR response.  The
second component records whether the execution step was invoked. -/
def run_pandas_code (execute : String → Outcome Resp) (code : String) : Resp × Bool :=
  match screen code with
  | .rejected =>
      ({ status := .ERROR, message := some "Code contains forbidden operations" }, false)
  | .allowed =>
      match execute code with
      | .ok r => (r, true)
      | .exn m t => ({ status := .ERROR, message := some m, traceback := some t }, true)

/-- **C10**.  A plain Python float — NaN included — is matched by the
primitive arm and returned unchanged, even though `pd.isna` holds of NaN:
the primitive arm precedes the missing-value check, so NaN is never
turned into `null`. -/
theorem C10_float_nan_unchanged :
    (∀ f, make_json_serializable (.float f) = .float f)
    ∧ isnaResult (.float .nan) = some true
    ∧ matchesEarlierRule (.float .nan) = true
    ∧ isNullVal (make_json_serializable (.float .nan)) = false :=
  ⟨fun _ => rfl, rfl, rfl, rfl⟩

/-- **C3**.  Every exception raised while a tool call runs is caught at
the tool boundary and converted into an ERROR response carrying the
exception's message; it never propagates to the caller.  This holds for
`dataframe_to_json_tool` whatever `run_pandas_code` raises, for
`dataframe_to_json_tool` when the execution succeeded with a DataFrame
but the file write raises, and for `read_json_tool` whatever
`pd.read_json` raises. -/
theorem C3_fatal_conditions_become_error_responses :
    (∀ (write : String → PyVal → Outcome Unit) (m t code output_path orient : String),
        dataframe_to_json_tool (fun _ => .exn m t) write code output_path orient
          = ({ status := .ERROR, message := some m, traceback := some t }, false))
    ∧ (∀ (r : Resp) (df : Frame) (m t code output_path orient : String),
        r.status = .SUCCESS → r.result = some (.dataframe df) →
        dataframe_to_json_tool (fun _ => .ok r) (fun _ _ => .exn m t)
            code output_path orient
          = ({ status := .ERROR, message := some m, traceback := some t }, false))
    ∧ (∀ (m t file_path orient : String),
        read_json_tool (fun _ _ => .exn m t) file_path orient
          = { status := .ERROR, message := some m }) := by
  refine ⟨fun _ _ _ _ _ _ => rfl, ?_, fun _ _ _ _ => rfl⟩
  intro r df m t code output_path orient hst hres
  simp [dataframe_to_json_tool, hst, hres]

/-- Witness for C3: a concrete run exception, a concrete write failure
after a successful run yielding an empty DataFrame, and a concrete read
exception all become ERROR responses with the exception's message. -/
theorem C3_witness :
    dataframe_to_json_tool (fun _ => .exn "boom" "trace") (fun _ _ => .ok ())
        "result = df" "/tmp/out.json" "records"
      = ({ status := .ERROR, message := some "boom", traceback := some "trace" }, false)
    ∧ dataframe_to_json_tool
        (fun _ => .ok { status := .SUCCESS,
                        result := some (.dataframe ⟨fun _ => .dict [], (0, 0), []⟩) })
        (fun _ _ => .exn "disk full" "wtrace") "result = df" "/tmp/out.json" "records"
      = ({ status := .ERROR, message := some "disk full", traceback := some "wtrace" }, false)
    ∧ read_json_tool (fun _ _ => .exn "no such file" "rtrace") "/tmp/in.json" "records"
      = { status := .ERROR, message := some "no such file" } :=
  ⟨C3_fatal_conditions_become_error_responses.1 _ "boom" "trace" _ _ _,
   C3_fatal_conditions_become_error_responses.2.1
     { status := .SUCCESS, result := some (.dataframe ⟨fun _ => .dict [], (0, 0), []⟩) }
     ⟨fun _ => .dict [], (0, 0), []⟩ "disk full" "wtrace" "result = df" "/tmp/out.json"
     "records" rfl rfl,
   C3_fatal_conditions_become_error_responses.2.2 "no such file" "rtrace" _ _⟩

/-- **C4**.  Every code string containing a denylisted substring (a
case-sensitive literal match against the fixed denylist) is rejected by
the screening step, and the execution step is never invoked for it:
`run_pandas_code` returns an ERROR response with the execute flag still
false. -/
theorem C4_denylist_rejects_before_execution :
    ∀ code : String,
      forbidden_operations.any (fun d => containsSubstrPy code d) = true →
      ∀ execute : String → Outcome Resp,
        screen code = .rejected
        ∧ (run_pandas_code execute code).2 = false
        ∧ (run_pandas_code execute code).1.status = .ERROR := by
  intro code h execute
  refine ⟨?_, ?_, ?_⟩ <;> simp [screen, run_pandas_code, h]

/-- Witness for C4: a submission containing `import os` is rejected and
never executed, whatever the execution step would have done. -/
theorem C4_witness :
    screen "import os\nresult = os.listdir()" = .rejected
    ∧ (run_pandas_code (fun _ => .ok { status := .SUCCESS })
        "import os\nresult = os.listdir()").2 = false
    ∧ (run_pandas_code (fun _ => .ok { status := .SUCCESS })
        "import os\nresult = os.listdir()").1.status = .ERROR :=
  C4_denylist_rejects_before_execution "import os\nresult = os.listdir()" (by decide)
    (fun _ => .ok { status := .SUCCESS })

/-- **C9**.  If `run_pandas_code` returns an ERROR response,
`dataframe_to_json_tool` returns that response unchanged; if it succeeds
but the value under `result` is not a DataFrame (some other object, or
absent), the tool returns an ERROR response with the fixed message
`Expected a pandas.DataFrame in 'result'`; in all three cases no output
file is written. -/
theorem C9_non_dataframe_result_rejected :
    (∀ (r : Resp) (write : String → PyVal → Outcome Unit) (code output_path orient : String),
        r.status = .ERROR →
        dataframe_to_json_tool (fun _ => .ok r) write code output_path orient = (r, false))
    ∧ (∀ (r : Resp) (v : PyVal) (write : String → PyVal → Outcome Unit)
          (code output_path orient : String),
        r.status = .SUCCESS → r.result = some (.pyobj v) →
        dataframe_to_json_tool (fun _ => .ok r) write code output_path orient
          = ({ status := .ERROR,
               message := some "Expected a pandas.DataFrame in 'result'" }, false))
    ∧ (∀ (r : Resp) (write : String → PyVal → Outcome Unit) (code output_path orient : String),
        r.status = .SUCCESS → r.result = Option.none →
        dataframe_to_json_tool (fun _ => .ok r) write code output_path orient
          = ({ status := .ERROR,
               message := some "Expected a pandas.DataFrame in 'result'" }, false)) := by
  refine ⟨?_, ?_, ?_⟩
  · intro r write code output_path orient hst
    simp [dataframe_to_json_tool, hst]
  · intro r v write code output_path orient hst hres
    simp [dataframe_to_json_tool, hst, hres]
  · intro r write code output_path orient hst hres
    simp [dataframe_to_json_tool, hst, hres]

/-- Witness for C9: an ERROR response from execution is passed through
unchanged; a successful execution whose `result` is the integer `3`, and
one with no `result` at all, both yield the fixed DataFrame error; no
file is written in any of the three cases. -/
theorem C9_witness :
    dataframe_to_json_tool
        (fun _ => .ok { status := .ERROR, message := some "SyntaxError: invalid syntax" })
        (fun _ _ => .ok ()) "result =" "/tmp/out.json" "records"
      = ({ status := .ERROR, message := some "SyntaxError: invalid syntax" }, false)
    ∧ dataframe_to_json_tool
        (fun _ => .ok { status := .SUCCESS, result := some (.pyobj (.int 3)) })
        (fun _ _ => .ok ()) "result = 3" "/tmp/out.json" "records"
      = ({ status := .ERROR,
           message := some "Expected a pandas.DataFrame in 'result'" }, false)
    ∧ dataframe_to_json_tool (fun _ => .ok { status := .SUCCESS })
        (fun _ _ => .ok ()) "x = 3" "/tmp/out.json" "records"
      = ({ status := .ERROR,
           message := some "Expected a pandas.DataFrame in 'result'" }, false) :=
  ⟨C9_non_dataframe_result_rejected.1
     { status := .ERROR, message := some "SyntaxError: invalid syntax" }
     (fun _ _ => .ok ()) "result =" "/tmp/out.json" "records" rfl,
   C9_non_dataframe_result_rejected.2.1
     { status := .SUCCESS, result := some (.pyobj (.int 3)) } (.int 3)
     (fun _ _ => .ok ()) "result = 3" "/tmp/out.json" "records" rfl rfl,
   C9_non_dataframe_result_rejected.2.2 { status := .SUCCESS }
     (fun _ _ => .ok ()) "x = 3" "/tmp/out.json" "records" rfl rfl⟩
